import Mathlib

/-!
Shallow embedding of the `get_checked` crate: fallible, non-panicking
bounds-checked access to slices.

Slices `&[T]` are embedded as `List α`; `usize` as `Nat` with explicit
overflow handling relative to `USIZE_MAX`; fallible functions return
`Except`.  Each `GetCheckedSlice<[T]>` impl from `src/lib.rs` becomes one
Lean function per access mode (`get_checked` / `get_checked_mut`), with the
source's own check order, bound normalization and error construction.  The
error model follows `src/error.rs` (`IndexErrorKind` and its `fmt`
renderer).
-/

/-- Maximum value of `usize` on the 64-bit targets the crate is built for. -/
def USIZE_MAX : Nat := 18446744073709551615

/-- Embeds `usize::checked_add`: `none` exactly when the mathematical sum
exceeds `USIZE_MAX`. -/
def checked_add (x y : Nat) : Option Nat :=
  if x + y ≤ USIZE_MAX then some (x + y) else none

/-- Embeds `core::ops::Bound<usize>` (by value). -/
inductive Bound where
  | Included : Nat → Bound
  | Excluded : Nat → Bound
  | Unbounded : Bound
deriving DecidableEq

/-- Embeds `IndexErrorKind` from `src/error.rs`: the closed set of error
kinds, with the numeric operands each variant carries. -/
inductive IndexErrorKind where
  | Bounds : Nat → Nat → IndexErrorKind
  | Order : Nat → Nat → IndexErrorKind
  | StartRange : Nat → Nat → IndexErrorKind
  | EndRange : Nat → Nat → IndexErrorKind
  | StartOverflow : IndexErrorKind
  | EndOverflow : IndexErrorKind
deriving DecidableEq

/-- Modelled from the spec: `src/lib.rs` constructs its errors through the
`Error` enum iteration of the error model, whose defining file is not in
the sources at hand; spec §9 records that all error-model iterations are
"alternative renderings of the identical contract", so the `Error` type is
identified with `IndexErrorKind`. -/
abbrev Error := IndexErrorKind

/-- Modelled from the spec: `Error::IndexError(index, len)` is the Bounds
kind (§3: Bounds carries `(index, len)`; `src/error.rs` documents operand 0
as the index and operand 1 as the length). -/
def Error.IndexError (a b : Nat) : Error := IndexErrorKind.Bounds a b

/-- Modelled from the spec: `Error::SliceIndexOrderError(start, end)` is the
Order kind (§3), rendered "slice index starts at {0} but ends at {1}". -/
def Error.SliceIndexOrderError (a b : Nat) : Error := IndexErrorKind.Order a b

/-- Modelled from the spec: `Error::SliceStartIndexLenError(start, len)` is
the StartRange kind (§3). -/
def Error.SliceStartIndexLenError (a b : Nat) : Error := IndexErrorKind.StartRange a b

/-- Modelled from the spec: `Error::SliceEndIndexLenError(end, len)` is the
EndRange kind (§3). -/
def Error.SliceEndIndexLenError (a b : Nat) : Error := IndexErrorKind.EndRange a b

/-- Modelled from the spec: `Error::StartIndexOverflowError()` is the
StartOverflow kind (§3). -/
def Error.StartIndexOverflowError : Error := IndexErrorKind.StartOverflow

/-- Modelled from the spec: `Error::EndIndexOverflowError()` is the
EndOverflow kind (§3). -/
def Error.EndIndexOverflowError : Error := IndexErrorKind.EndOverflow

/-- Embeds `IndexError::fmt` from `src/error.rs` (the `w!` calls, lines
116-128), rendered to a `String`.  Operands are interpolated in declared
order: for `Bounds(a, b)` the first operand `a` fills the "len is" slot and
the second operand `b` fills the "index is" slot, exactly as the source's
format string does. -/
def IndexError.fmt : IndexErrorKind → String
  | IndexErrorKind.Bounds a b =>
      "index out of bounds: the len is " ++ toString a ++ " but the index is " ++ toString b
  | IndexErrorKind.Order a b =>
      "slice index starts at " ++ toString a ++ " but ends at " ++ toString b
  | IndexErrorKind.StartRange a b =>
      "range start index " ++ toString a ++ " out of range for slice of length " ++ toString b
  | IndexErrorKind.StartOverflow =>
      "attempted to index slice from after maximum usize"
  | IndexErrorKind.EndRange a b =>
      "range end index " ++ toString a ++ " out of range for slice of length " ++ toString b
  | IndexErrorKind.EndOverflow =>
      "attempted to index slice up to maximum usize"

variable {α : Type}

/-- Embeds `<usize as GetCheckedSlice<[T]>>::get_checked` (src/lib.rs
lines 18-29): in-bounds check, then unchecked element access. -/
def usize_get_checked (self : Nat) (slice : List α) : Except Error α :=
  if h : self < slice.length then Except.ok (slice.get ⟨self, h⟩)
  else Except.error (Error.IndexError self slice.length)

/-- Embeds `<usize as GetCheckedSlice<[T]>>::get_checked_mut` (src/lib.rs
lines 32-43); the source duplicates the read-path body. -/
def usize_get_checked_mut (self : Nat) (slice : List α) : Except Error α :=
  if h : self < slice.length then Except.ok (slice.get ⟨self, h⟩)
  else Except.error (Error.IndexError self slice.length)

/-- Embeds `<Range<usize> as GetCheckedSlice<[T]>>::get_checked`
(src/lib.rs lines 51-66): order check, then end-length check, then
unchecked subslice `[start, stop)`. -/
def range_get_checked (start stop : Nat) (slice : List α) : Except Error (List α) :=
  let len := slice.length
  if start > stop then Except.error (Error.SliceIndexOrderError start stop)
  else if stop > len then Except.error (Error.SliceEndIndexLenError stop len)
  else Except.ok ((slice.drop start).take (stop - start))

/-- Embeds `<Range<usize> as GetCheckedSlice<[T]>>::get_checked_mut`
(src/lib.rs lines 69-84). -/
def range_get_checked_mut (start stop : Nat) (slice : List α) : Except Error (List α) :=
  let len := slice.length
  if start > stop then Except.error (Error.SliceIndexOrderError start stop)
  else if stop > len then Except.error (Error.SliceEndIndexLenError stop len)
  else Except.ok ((slice.drop start).take (stop - start))

/-- Embeds `RangeBounds::end_bound` for `RangeTo<usize>` (std semantics):
always an excluded bound at `self.end`. -/
def RangeTo.end_bound (self : Nat) : Bound := Bound.Excluded self

/-- Embeds `<RangeTo<usize> as GetCheckedSlice<[T]>>::get_checked`
(src/lib.rs lines 92-108): normalize the end bound (with overflow check on
the included arm), then end-length check, then unchecked subslice
`[0, end)`. -/
def rangeTo_get_checked (self : Nat) (slice : List α) : Except Error (List α) :=
  match (match RangeTo.end_bound self with
         | Bound.Included x =>
             match checked_add x 1 with
             | some v => Except.ok v
             | none => Except.error Error.EndIndexOverflowError
         | Bound.Excluded x => Except.ok x
         | Bound.Unbounded => Except.ok slice.length : Except Error Nat) with
  | Except.error e => Except.error e
  | Except.ok stop =>
      let len := slice.length
      if stop > len then Except.error (Error.SliceEndIndexLenError stop len)
      else Except.ok (slice.take self)

/-- Embeds `<RangeTo<usize> as GetCheckedSlice<[T]>>::get_checked_mut`
(src/lib.rs lines 111-127). -/
def rangeTo_get_checked_mut (self : Nat) (slice : List α) : Except Error (List α) :=
  match (match RangeTo.end_bound self with
         | Bound.Included x =>
             match checked_add x 1 with
             | some v => Except.ok v
             | none => Except.error Error.EndIndexOverflowError
         | Bound.Excluded x => Except.ok x
         | Bound.Unbounded => Except.ok slice.length : Except Error Nat) with
  | Except.error e => Except.error e
  | Except.ok stop =>
      let len := slice.length
      if stop > len then Except.error (Error.SliceEndIndexLenError stop len)
      else Except.ok (slice.take self)

/-- Embeds `RangeBounds::start_bound` for `RangeFrom<usize>` (std
semantics): always an included bound at `self.start`. -/
def RangeFrom.start_bound (self : Nat) : Bound := Bound.Included self

/-- Embeds `<RangeFrom<usize> as GetCheckedSlice<[T]>>::get_checked`
(src/lib.rs lines 135-151): normalize the start bound (with overflow check
on the excluded arm), then start-length check, then unchecked subslice
`[start, len)`. -/
def rangeFrom_get_checked (self : Nat) (slice : List α) : Except Error (List α) :=
  match (match RangeFrom.start_bound self with
         | Bound.Included x => Except.ok x
         | Bound.Excluded x =>
             match checked_add x 1 with
             | some v => Except.ok v
             | none => Except.error Error.StartIndexOverflowError
         | Bound.Unbounded => Except.ok 0 : Except Error Nat) with
  | Except.error e => Except.error e
  | Except.ok start =>
      let len := slice.length
      if start > len then Except.error (Error.SliceStartIndexLenError start len)
      else Except.ok (slice.drop self)

/-- Embeds `<RangeFrom<usize> as GetCheckedSlice<[T]>>::get_checked_mut`
(src/lib.rs lines 154-170). -/
def rangeFrom_get_checked_mut (self : Nat) (slice : List α) : Except Error (List α) :=
  match (match RangeFrom.start_bound self with
         | Bound.Included x => Except.ok x
         | Bound.Excluded x =>
             match checked_add x 1 with
             | some v => Except.ok v
             | none => Except.error Error.StartIndexOverflowError
         | Bound.Unbounded => Except.ok 0 : Except Error Nat) with
  | Except.error e => Except.error e
  | Except.ok start =>
      let len := slice.length
      if start > len then Except.error (Error.SliceStartIndexLenError start len)
      else Except.ok (slice.drop self)

/-- Embeds `<RangeFull as GetCheckedSlice<[T]>>::get_checked` (src/lib.rs
lines 178-181): unconditional success with the whole slice. -/
def rangeFull_get_checked (slice : List α) : Except Error (List α) :=
  Except.ok slice

/-- Embeds `<RangeFull as GetCheckedSlice<[T]>>::get_checked_mut`
(src/lib.rs lines 184-187). -/
def rangeFull_get_checked_mut (slice : List α) : Except Error (List α) :=
  Except.ok slice

/-- Embeds `RangeBounds::start_bound` for `RangeInclusive<usize>` (std
semantics): always an included bound at `self.start()`. -/
def RangeInclusive.start_bound (start _stop : Nat) : Bound := Bound.Included start

/-- Embeds `RangeBounds::end_bound` for `RangeInclusive<usize>` (std
semantics): always an included bound at `self.end()`. -/
def RangeInclusive.end_bound (_start stop : Nat) : Bound := Bound.Included stop

/-- Embeds `<RangeInclusive<usize> as GetCheckedSlice<[T]>>::get_checked`
(src/lib.rs lines 195-219): normalize start (overflow check on the
excluded arm), then end (overflow check on the included arm), then order
check, then end-length check, then unchecked subslice `[start, stop+1)`. -/
def rangeInclusive_get_checked (start stop : Nat) (slice : List α) : Except Error (List α) :=
  match (match RangeInclusive.start_bound start stop with
         | Bound.Included x => Except.ok x
         | Bound.Excluded x =>
             match checked_add x 1 with
             | some v => Except.ok v
             | none => Except.error Error.StartIndexOverflowError
         | Bound.Unbounded => Except.ok 0 : Except Error Nat) with
  | Except.error e => Except.error e
  | Except.ok s =>
      match (match RangeInclusive.end_bound start stop with
             | Bound.Included x =>
                 match checked_add x 1 with
                 | some v => Except.ok v
                 | none => Except.error Error.EndIndexOverflowError
             | Bound.Excluded x => Except.ok x
             | Bound.Unbounded => Except.ok slice.length : Except Error Nat) with
      | Except.error e => Except.error e
      | Except.ok e =>
          let len := slice.length
          if s > e then Except.error (Error.SliceIndexOrderError s e)
          else if e > len then Except.error (Error.SliceEndIndexLenError e len)
          else Except.ok ((slice.drop start).take (stop + 1 - start))

/-- Embeds `<RangeInclusive<usize> as GetCheckedSlice<[T]>>::get_checked_mut`
(src/lib.rs lines 222-246). -/
def rangeInclusive_get_checked_mut (start stop : Nat) (slice : List α) : Except Error (List α) :=
  match (match RangeInclusive.start_bound start stop with
         | Bound.Included x => Except.ok x
         | Bound.Excluded x =>
             match checked_add x 1 with
             | some v => Except.ok v
             | none => Except.error Error.StartIndexOverflowError
         | Bound.Unbounded => Except.ok 0 : Except Error Nat) with
  | Except.error e => Except.error e
  | Except.ok s =>
      match (match RangeInclusive.end_bound start stop with
             | Bound.Included x =>
                 match checked_add x 1 with
                 | some v => Except.ok v
                 | none => Except.error Error.EndIndexOverflowError
             | Bound.Excluded x => Except.ok x
             | Bound.Unbounded => Except.ok slice.length : Except Error Nat) with
      | Except.error e => Except.error e
      | Except.ok e =>
          let len := slice.length
          if s > e then Except.error (Error.SliceIndexOrderError s e)
          else if e > len then Except.error (Error.SliceEndIndexLenError e len)
          else Except.ok ((slice.drop start).take (stop + 1 - start))

/-- Embeds `<RangeToInclusive<usize> as GetCheckedSlice<[T]>>::get_checked`
(src/lib.rs lines 254-257): delegates to `(0..=self.end).get_checked`. -/
def rangeToInclusive_get_checked (self : Nat) (slice : List α) : Except Error (List α) :=
  rangeInclusive_get_checked 0 self slice

/-- Embeds `<RangeToInclusive<usize> as GetCheckedSlice<[T]>>::get_checked_mut`
(src/lib.rs lines 260-263): delegates to `(0..=self.end).get_checked_mut`. -/
def rangeToInclusive_get_checked_mut (self : Nat) (slice : List α) : Except Error (List α) :=
  rangeInclusive_get_checked_mut 0 self slice

/-- Embeds the seven concrete index shapes accepted by the
`GetCheckedSlice<[T]>` impls of `src/lib.rs`: `usize`, `Range`, `RangeTo`,
`RangeFrom`, `RangeFull`, `RangeInclusive`, `RangeToInclusive`. -/
inductive IndexShape where
  | position : Nat → IndexShape
  | range : Nat → Nat → IndexShape
  | rangeTo : Nat → IndexShape
  | rangeFrom : Nat → IndexShape
  | rangeFull : IndexShape
  | rangeInclusive : Nat → Nat → IndexShape
  | rangeToInclusive : Nat → IndexShape
deriving DecidableEq

/-- The heterogeneous output of `GetCheckedSlice::Output`: a single element
for a position index, a subslice view for every range shape. -/
inductive View (α : Type) where
  | element : α → View α
  | sub : List α → View α
deriving DecidableEq

/-- Embeds the `GetChecked::get_checked` trait dispatch (src/lib.rs lines
269-273): routes each index shape to its `GetCheckedSlice` impl. -/
def dispatch_get_checked : IndexShape → List α → Except Error (View α)
  | IndexShape.position i, slice => (usize_get_checked i slice).map View.element
  | IndexShape.range s e, slice => (range_get_checked s e slice).map View.sub
  | IndexShape.rangeTo e, slice => (rangeTo_get_checked e slice).map View.sub
  | IndexShape.rangeFrom s, slice => (rangeFrom_get_checked s slice).map View.sub
  | IndexShape.rangeFull, slice => (rangeFull_get_checked slice).map View.sub
  | IndexShape.rangeInclusive s e, slice => (rangeInclusive_get_checked s e slice).map View.sub
  | IndexShape.rangeToInclusive e, slice => (rangeToInclusive_get_checked e slice).map View.sub

/-- Embeds the `GetChecked::get_checked_mut` trait dispatch (src/lib.rs
lines 276-280). -/
def dispatch_get_checked_mut : IndexShape → List α → Except Error (View α)
  | IndexShape.position i, slice => (usize_get_checked_mut i slice).map View.element
  | IndexShape.range s e, slice => (range_get_checked_mut s e slice).map View.sub
  | IndexShape.rangeTo e, slice => (rangeTo_get_checked_mut e slice).map View.sub
  | IndexShape.rangeFrom s, slice => (rangeFrom_get_checked_mut s slice).map View.sub
  | IndexShape.rangeFull, slice => (rangeFull_get_checked_mut slice).map View.sub
  | IndexShape.rangeInclusive s e, slice => (rangeInclusive_get_checked_mut s e slice).map View.sub
  | IndexShape.rangeToInclusive e, slice => (rangeToInclusive_get_checked_mut e slice).map View.sub

/-- Spec-side definition for the round-trip claim: the native (panicking)
indexing result `slice[start..stop]`, i.e. the elements in positions
`[start, stop)`, written independently of the embedding's success branch. -/
def nativeRangeIndex (start stop : Nat) (slice : List α) : List α :=
  (slice.take stop).drop start

/-- Recognizes the StartOverflow error among dispatch results. -/
def is_start_overflow : Except Error (View α) → Bool
  | Except.error IndexErrorKind.StartOverflow => true
  | _ => false

/-- C1: for every slice of length `len` and single-position index `i`,
`get_checked(i)` succeeds with the element at position `i` exactly when
`i < len`, and otherwise returns the `Bounds(i, len)` error; the same holds
for `get_checked_mut(i)`. -/
theorem claim_C1 {α : Type} (slice : List α) (i : Nat) :
    (∀ h : i < slice.length,
        usize_get_checked i slice = Except.ok (slice.get ⟨i, h⟩) ∧
        usize_get_checked_mut i slice = Except.ok (slice.get ⟨i, h⟩)) ∧
    (¬ i < slice.length →
        usize_get_checked i slice = Except.error (IndexErrorKind.Bounds i slice.length) ∧
        usize_get_checked_mut i slice = Except.error (IndexErrorKind.Bounds i slice.length)) := by
  constructor
  · intro h
    constructor <;> simp [usize_get_checked, usize_get_checked_mut, h]
  · intro h
    constructor <;> simp [usize_get_checked, usize_get_checked_mut, h, Error.IndexError]

/-- Witness for C1 at the concrete slice `[10, 20, 30]` with the in-bounds
index 1 and the out-of-bounds index 5. -/
theorem claim_C1_witness :
    usize_get_checked 1 [10, 20, 30] = Except.ok 20 ∧
    usize_get_checked_mut 1 [10, 20, 30] = Except.ok 20 ∧
    usize_get_checked 5 [10, 20, 30] = Except.error (IndexErrorKind.Bounds 5 3) ∧
    usize_get_checked_mut 5 [10, 20, 30] = Except.error (IndexErrorKind.Bounds 5 3) :=
  ⟨((claim_C1 [10, 20, 30] 1).1 (by decide)).1,
   ((claim_C1 [10, 20, 30] 1).1 (by decide)).2,
   ((claim_C1 [10, 20, 30] 5).2 (by decide)).1,
   ((claim_C1 [10, 20, 30] 5).2 (by decide)).2⟩

/-- C2 evaluation at a failing input: on a slice of length 3, the error for
index 7 is `Bounds(7, 3)` (operands in `(index, len)` order), and the
`fmt` renderer of `src/error.rs` interpolates the FIRST operand — the
offending index 7 — into the "len is" slot and the length 3 into the
"index is" slot.  The rendered string therefore differs from the native
panic phrasing "the len is 3 but the index is 7" that the claim (and the
crate's own documentation) promises. -/
theorem claim_C2_code_eval :
    usize_get_checked 7 ([0, 0, 0] : List Nat) = Except.error (IndexErrorKind.Bounds 7 3) ∧
    usize_get_checked_mut 7 ([0, 0, 0] : List Nat) = Except.error (IndexErrorKind.Bounds 7 3) ∧
    IndexError.fmt (IndexErrorKind.Bounds 7 3) =
      "index out of bounds: the len is 7 but the index is 3" ∧
    IndexError.fmt (IndexErrorKind.Bounds 7 3) ≠
      "index out of bounds: the len is 3 but the index is 7" :=
  ⟨rfl, rfl, rfl, by decide⟩

/-- C3: for every slice and every half-open range with
`start ≤ stop ≤ len`, `get_checked(start..stop)` succeeds, the view has
length `stop - start`, and its element sequence equals the native
(panicking) indexing result `slice[start..stop]`; the same holds for
`get_checked_mut`. -/
theorem claim_C3 {α : Type} (slice : List α) (start stop : Nat)
    (h1 : start ≤ stop) (h2 : stop ≤ slice.length) :
    range_get_checked start stop slice = Except.ok (nativeRangeIndex start stop slice) ∧
    (nativeRangeIndex start stop slice).length = stop - start ∧
    range_get_checked_mut start stop slice = Except.ok (nativeRangeIndex start stop slice) := by
  have hview : (slice.drop start).take (stop - start) = nativeRangeIndex start stop slice :=
    (List.drop_take ..).symm
  have hlen : (nativeRangeIndex start stop slice).length = stop - start := by
    unfold nativeRangeIndex
    simp [Nat.min_eq_left h2]
  have c1 : ¬ start > stop := Nat.not_lt.mpr h1
  have c2 : ¬ stop > slice.length := Nat.not_lt.mpr h2
  refine ⟨?_, hlen, ?_⟩ <;>
    · simp only [range_get_checked, range_get_checked_mut, c1, c2, if_false, ite_false]
      rw [hview]

/-- Witness for C3 at the concrete slice `[1, 2, 3, 4, 5]` with the valid
range `1..3`. -/
theorem claim_C3_witness :
    range_get_checked 1 3 ([1, 2, 3, 4, 5] : List Nat) =
      Except.ok (nativeRangeIndex 1 3 [1, 2, 3, 4, 5]) ∧
    (nativeRangeIndex 1 3 ([1, 2, 3, 4, 5] : List Nat)).length = 3 - 1 ∧
    range_get_checked_mut 1 3 ([1, 2, 3, 4, 5] : List Nat) =
      Except.ok (nativeRangeIndex 1 3 [1, 2, 3, 4, 5]) :=
  claim_C3 [1, 2, 3, 4, 5] 1 3 (by decide) (by decide)

/-- C4: whenever a range's normalized start exceeds its normalized end,
`get_checked` and `get_checked_mut` return `Order(start, end)` regardless
of the slice length (so even when `end > len` also holds): for the
half-open `Range` shape directly, and for the `RangeInclusive` shape after
the inclusive end is normalized to `stop + 1`. -/
theorem claim_C4 {α : Type} (slice : List α) (start stop : Nat) :
    (start > stop →
        range_get_checked start stop slice = Except.error (IndexErrorKind.Order start stop) ∧
        range_get_checked_mut start stop slice =
          Except.error (IndexErrorKind.Order start stop)) ∧
    (stop < USIZE_MAX → start > stop + 1 →
        rangeInclusive_get_checked start stop slice =
          Except.error (IndexErrorKind.Order start (stop + 1)) ∧
        rangeInclusive_get_checked_mut start stop slice =
          Except.error (IndexErrorKind.Order start (stop + 1))) := by
  constructor
  · intro h
    constructor <;>
      simp [range_get_checked, range_get_checked_mut, h, Error.SliceIndexOrderError]
  · intro hmax h
    have hadd : checked_add stop 1 = some (stop + 1) := by
      have hle : stop + 1 ≤ USIZE_MAX := hmax
      simp [checked_add, hle]
    constructor <;>
      simp [rangeInclusive_get_checked, rangeInclusive_get_checked_mut,
            RangeInclusive.start_bound, RangeInclusive.end_bound, hadd, h,
            Error.SliceIndexOrderError]

/-- Witness for C4 on a 16-element slice: `17..5` gives `Order(17, 5)` even
though `end > len` fails too, and `17..=4` gives `Order(17, 5)` after the
inclusive end 4 is normalized to 5. -/
theorem claim_C4_witness :
    range_get_checked 17 5 (List.replicate 16 (0 : Nat)) =
      Except.error (IndexErrorKind.Order 17 5) ∧
    rangeInclusive_get_checked 17 4 (List.replicate 16 (0 : Nat)) =
      Except.error (IndexErrorKind.Order 17 5) ∧
    range_get_checked_mut 17 5 (List.replicate 16 (0 : Nat)) =
      Except.error (IndexErrorKind.Order 17 5) ∧
    rangeInclusive_get_checked_mut 17 4 (List.replicate 16 (0 : Nat)) =
      Except.error (IndexErrorKind.Order 17 5) :=
  ⟨((claim_C4 (List.replicate 16 0) 17 5).1 (by decide)).1,
   ((claim_C4 (List.replicate 16 0) 17 4).2 (by decide) (by decide)).1,
   ((claim_C4 (List.replicate 16 0) 17 5).1 (by decide)).2,
   ((claim_C4 (List.replicate 16 0) 17 4).2 (by decide) (by decide)).2⟩

/-- C5: for every slice, regardless of length, `get_checked(0..=usize::MAX)`
and `get_checked(..=usize::MAX)` (and the `get_checked_mut` counterparts)
return `EndOverflow()`: the inclusive-to-exclusive conversion of the end
bound fails before any order or length comparison. -/
theorem claim_C5 {α : Type} (slice : List α) :
    rangeInclusive_get_checked 0 USIZE_MAX slice = Except.error IndexErrorKind.EndOverflow ∧
    rangeToInclusive_get_checked USIZE_MAX slice = Except.error IndexErrorKind.EndOverflow ∧
    rangeInclusive_get_checked_mut 0 USIZE_MAX slice =
      Except.error IndexErrorKind.EndOverflow ∧
    rangeToInclusive_get_checked_mut USIZE_MAX slice =
      Except.error IndexErrorKind.EndOverflow := by
  have hadd : checked_add USIZE_MAX 1 = none := by
    unfold checked_add
    rw [if_neg]
    omega
  refine ⟨?_, ?_, ?_, ?_⟩ <;>
    simp [rangeInclusive_get_checked, rangeInclusive_get_checked_mut,
          rangeToInclusive_get_checked, rangeToInclusive_get_checked_mut,
          RangeInclusive.start_bound, RangeInclusive.end_bound, hadd,
          Error.EndIndexOverflowError]

/-- C6: for every slice, including the empty one, full-range access
`get_checked(..)` and `get_checked_mut(..)` always succeed with a view
equal to the entire slice and never return an error. -/
theorem claim_C6 {α : Type} (slice : List α) :
    rangeFull_get_checked slice = Except.ok slice ∧
    rangeFull_get_checked_mut slice = Except.ok slice :=
  ⟨rfl, rfl⟩

/-- C7: for every slice of length `len` and start value `s`,
`get_checked(s..)` succeeds with the view of elements `[s, len)` exactly
when `s ≤ len` (in particular `s = len` succeeds with the empty view), and
otherwise returns `StartRange(s, len)`; the same holds for
`get_checked_mut`. -/
theorem claim_C7 {α : Type} (slice : List α) (s : Nat) :
    (s ≤ slice.length →
        rangeFrom_get_checked s slice = Except.ok (slice.drop s) ∧
        rangeFrom_get_checked_mut s slice = Except.ok (slice.drop s)) ∧
    (slice.length < s →
        rangeFrom_get_checked s slice =
          Except.error (IndexErrorKind.StartRange s slice.length) ∧
        rangeFrom_get_checked_mut s slice =
          Except.error (IndexErrorKind.StartRange s slice.length)) ∧
    rangeFrom_get_checked slice.length slice = Except.ok ([] : List α) := by
  refine ⟨fun h => ?_, fun h => ?_, ?_⟩
  · have c : ¬ s > slice.length := Nat.not_lt.mpr h
    constructor <;>
      simp [rangeFrom_get_checked, rangeFrom_get_checked_mut, RangeFrom.start_bound, c]
  · constructor <;>
      simp [rangeFrom_get_checked, rangeFrom_get_checked_mut, RangeFrom.start_bound, h,
            Error.SliceStartIndexLenError]
  · simp [rangeFrom_get_checked, RangeFrom.start_bound, List.drop_length]

/-- Witness for C7 at the concrete slice `[1, 2, 3]` with the valid start 2
and the invalid start 4. -/
theorem claim_C7_witness :
    rangeFrom_get_checked 2 ([1, 2, 3] : List Nat) = Except.ok [3] ∧
    rangeFrom_get_checked_mut 2 ([1, 2, 3] : List Nat) = Except.ok [3] ∧
    rangeFrom_get_checked 4 ([1, 2, 3] : List Nat) =
      Except.error (IndexErrorKind.StartRange 4 3) ∧
    rangeFrom_get_checked_mut 4 ([1, 2, 3] : List Nat) =
      Except.error (IndexErrorKind.StartRange 4 3) :=
  ⟨((claim_C7 [1, 2, 3] 2).1 (by decide)).1,
   ((claim_C7 [1, 2, 3] 2).1 (by decide)).2,
   ((claim_C7 [1, 2, 3] 4).2.1 (by decide)).1,
   ((claim_C7 [1, 2, 3] 4).2.1 (by decide)).2⟩

/-- C8: for every slice and end value `e`, `get_checked(..=e)` returns
exactly the same result — same view on success, same error kind and
operands on failure — as `get_checked(0..=e)`, and likewise for
`get_checked_mut`. -/
theorem claim_C8 {α : Type} (slice : List α) (e : Nat) :
    rangeToInclusive_get_checked e slice = rangeInclusive_get_checked 0 e slice ∧
    rangeToInclusive_get_checked_mut e slice = rangeInclusive_get_checked_mut 0 e slice :=
  ⟨rfl, rfl⟩

/-- C9: for every supported index shape and every slice, `get_checked_mut`
returns exactly the same result as `get_checked`: it succeeds exactly when
the read path does, the views denote the same element range, and on
failure the error is identical (same kind and operands, hence the same
rendered message). -/
theorem claim_C9 {α : Type} (shape : IndexShape) (slice : List α) :
    dispatch_get_checked_mut shape slice = dispatch_get_checked shape slice := by
  cases shape <;> rfl

/-- C10: for every slice and every one of the seven concrete index shapes,
neither `get_checked` nor `get_checked_mut` ever returns the
`StartOverflow()` error: the start-overflow branch is only reachable from
an excluded start bound, which no concrete shape produces. -/
theorem claim_C10 {α : Type} (shape : IndexShape) (slice : List α) :
    is_start_overflow (dispatch_get_checked shape slice) = false ∧
    is_start_overflow (dispatch_get_checked_mut shape slice) = false := by
  cases shape <;>
    refine ⟨?_, ?_⟩ <;>
    simp only [dispatch_get_checked, dispatch_get_checked_mut,
      usize_get_checked, usize_get_checked_mut, range_get_checked, range_get_checked_mut,
      rangeTo_get_checked, rangeTo_get_checked_mut,
      rangeFrom_get_checked, rangeFrom_get_checked_mut,
      rangeFull_get_checked, rangeFull_get_checked_mut,
      rangeInclusive_get_checked, rangeInclusive_get_checked_mut,
      rangeToInclusive_get_checked, rangeToInclusive_get_checked_mut,
      RangeTo.end_bound, RangeFrom.start_bound,
      RangeInclusive.start_bound, RangeInclusive.end_bound, checked_add] <;>
    (repeat' split) <;>
    first
    | rfl
    | (rename_i heq
       split at heq
       · exact Except.noConfusion heq
       · injection heq with h
         subst h
         rfl)
